import Mathlib

/-!
A shallow embedding in Lean 4 of the dialogue-coordinator core of the
repository (backend/src/services): `chat_service.py`,
`local_intent_service.py`, `semantic_search.py` and
`conversation_metrics.py`.  Python strings are Lean `String`s, Python
ints are `Int`, Python floats are modelled as exact rationals `ℚ`,
Python dicts that preserve insertion order are association lists
`List (String × _)`, `None`-able values are `Option`s, and a Python
call that may raise is an `Except String _`.  The outcomes of the
external collaborators (the LLM completion call, the remote intent
service raising, an unexpected exception reaching the top-level
`try` of `coordinator`) are supplied as explicit oracle inputs.
-/

namespace ChatSpec

/-- `a` is a prefix of `b` (over character lists). -/
def startsWithL : List Char → List Char → Bool
  | [], _ => true
  | _ :: _, [] => false
  | a :: as, b :: bs => a == b && startsWithL as bs

/-- `a` occurs as a contiguous substring of `b`: Python's `a in b` on strings. -/
def insideL (a : List Char) : List Char → Bool
  | [] => startsWithL a []
  | b :: bs => startsWithL a (b :: bs) || insideL a bs

/-- Python `a in b` for strings. -/
def insideS (a b : String) : Bool := insideL a.toList b.toList

/-- Python `str.lower()` (charwise, as the kernel-reducible model of
`String.toLower`). -/
def lowerS (s : String) : String := String.mk (s.toList.map Char.toLower)

/-- Split a character list at every separator (keeping empty fields), as
Python `str.split(sep)` does for a one-character separator. -/
def splitPred (p : Char → Bool) : List Char → List Char → List String
  | [], acc => [String.mk acc.reverse]
  | c :: cs, acc =>
      if p c then String.mk acc.reverse :: splitPred p cs []
      else splitPred p cs (c :: acc)

/-- The apostrophe character, used inside the regex patterns and canned texts. -/
def apo : String := (Char.ofNat 39).toString

/-!
## A small regular-expression engine

`chat_service.py` applies `re.search` with a fixed list of patterns built
from literal text, non-capturing groups `(?:...)`, alternation `|` and the
optional quantifier `?`.  The fragment of regular expressions they use is
embedded as an inductive syntax with a Brzozowski-derivative matcher;
`reSearch` has Python's `re.search` semantics (match starting anywhere).
-/

inductive RE where
  | fail : RE
  | eps : RE
  | chr : Char → RE
  | seq : RE → RE → RE
  | alt : RE → RE → RE
  | opt : RE → RE
deriving Repr

def RE.nullable : RE → Bool
  | .fail => false
  | .eps => true
  | .chr _ => false
  | .seq a b => a.nullable && b.nullable
  | .alt a b => a.nullable || b.nullable
  | .opt _ => true

def RE.deriv : RE → Char → RE
  | .fail, _ => .fail
  | .eps, _ => .fail
  | .chr c, d => if c == d then .eps else .fail
  | .seq a b, c =>
      if a.nullable then .alt (.seq (a.deriv c) b) (b.deriv c) else .seq (a.deriv c) b
  | .alt a b, c => .alt (a.deriv c) (b.deriv c)
  | .opt a, c => a.deriv c

/-- Does some prefix of the input match `r`? -/
def RE.matchHere (r : RE) : List Char → Bool
  | [] => r.nullable
  | c :: cs => r.nullable || (r.deriv c).matchHere cs

/-- Python's `re.search`: does `r` match starting at some position of the input? -/
def reSearch (r : RE) : List Char → Bool
  | [] => r.nullable
  | c :: cs => r.matchHere (c :: cs) || reSearch r cs

/-- A literal string as a regex. -/
def lit (s : String) : RE := s.toList.foldr (fun c acc => RE.seq (RE.chr c) acc) RE.eps

/-- Concatenation of a list of regexes. -/
def rcat (l : List RE) : RE := l.foldr RE.seq RE.eps

/-- Alternation over a list of regexes (the `(?:x|y|z)` groups). -/
def ralt : List RE → RE
  | [] => RE.fail
  | [r] => r
  | r :: rs => RE.alt r (ralt rs)

/-- Alternation over literal strings. -/
def altS (l : List String) : RE := ralt (l.map lit)

/-!
## The fixed pattern lists of `ChatService.__init__`
Each `fpN` / `frN` transcribes one raw-string regex literal from
`self.follow_up_patterns` / `self.frustration_indicators`.
-/

/-- Pattern `that (?:didn't|doesn't?) work`. -/
def fp1 : RE := rcat [lit "that ",
  RE.alt (lit ("didn" ++ apo ++ "t")) (rcat [lit ("doesn" ++ apo), RE.opt (lit "t")]),
  lit " work"]

/-- Pattern `(?:still|it's still) not working`. -/
def fp2 : RE := rcat [altS ["still", "it" ++ apo ++ "s still"], lit " not working"]

/-- Pattern `(?:that|it) (?:didn't|doesn't) help`. -/
def fp3 : RE := rcat [altS ["that", "it"], lit " ",
  altS ["didn" ++ apo ++ "t", "doesn" ++ apo ++ "t"], lit " help"]

/-- Pattern `(?:try|give me) (?:something|another) (?:else|different)`. -/
def fp4 : RE := rcat [altS ["try", "give me"], lit " ",
  altS ["something", "another"], lit " ", altS ["else", "different"]]

/-- Pattern `what else (?:can|could) (?:you|we)`. -/
def fp5 : RE := rcat [lit "what else ", altS ["can", "could"], lit " ", altS ["you", "we"]]

/-- Pattern `(?:any|got) other (?:ideas|suggestions|solutions)`. -/
def fp6 : RE := rcat [altS ["any", "got"], lit " other ",
  altS ["ideas", "suggestions", "solutions"]]

/-- Pattern `(?:doesn't|isn't?) (?:solving|fixing) (?:my|the) (?:problem|issue)`. -/
def fp7 : RE := rcat [
  RE.alt (lit ("doesn" ++ apo ++ "t")) (rcat [lit ("isn" ++ apo), RE.opt (lit "t")]),
  lit " ", altS ["solving", "fixing"], lit " ", altS ["my", "the"], lit " ",
  altS ["problem", "issue"]]

/-- Pattern `I need (?:more|different|another) help` (note the capital `I`:
searched against the lowercased message, as in the source). -/
def fp8 : RE := rcat [lit "I need ", altS ["more", "different", "another"], lit " help"]

/-- Pattern `(?:can you|could you) help (?:me )?(?:with )?something else`. -/
def fp9 : RE := rcat [altS ["can you", "could you"], lit " help ",
  RE.opt (lit "me "), RE.opt (lit "with "), lit "something else"]

/-- `self.follow_up_patterns`. -/
def follow_up_patterns : List RE := [fp1, fp2, fp3, fp4, fp5, fp6, fp7, fp8, fp9]

/-- Pattern `(?:this is )?(?:really )?frustrating`. -/
def fr1 : RE := rcat [RE.opt (lit "this is "), RE.opt (lit "really "), lit "frustrating"]

/-- Pattern `(?:why )?(?:is this|this is) so (?:hard|difficult|complicated)`. -/
def fr2 : RE := rcat [RE.opt (lit "why "), altS ["is this", "this is"], lit " so ",
  altS ["hard", "difficult", "complicated"]]

/-- Pattern `(?:I|we) (?:already|just) tried that`. -/
def fr3 : RE := rcat [altS ["I", "we"], lit " ", altS ["already", "just"], lit " tried that"]

/-- Pattern `(?:that|this) (?:makes no|doesn't make) sense`. -/
def fr4 : RE := rcat [altS ["that", "this"], lit " ",
  altS ["makes no", "doesn" ++ apo ++ "t make"], lit " sense"]

/-- Pattern `(?:I|we) (?:need|want) to (?:speak|talk) to (?:a )?(?:human|person|someone)`. -/
def fr5 : RE := rcat [altS ["I", "we"], lit " ", altS ["need", "want"], lit " to ",
  altS ["speak", "talk"], lit " to ", RE.opt (lit "a "),
  altS ["human", "person", "someone"]]

/-- Pattern `(?:this )?(?:chatbot|bot|system) (?:is )?(?:useless|not helping|broken)`. -/
def fr6 : RE := rcat [RE.opt (lit "this "), altS ["chatbot", "bot", "system"], lit " ",
  RE.opt (lit "is "), altS ["useless", "not helping", "broken"]]

/-- `self.frustration_indicators`. -/
def frustration_indicators : List RE := [fr1, fr2, fr3, fr4, fr5, fr6]

/-!
## Data model (`chat_service.py`)
-/

/-- `ConversationState` enum. -/
inductive ConversationState where
  | initial
  | problem_solving
  | follow_up
  | escalation
  | resolved
deriving Repr, DecidableEq

/-- The `.value` string of each `ConversationState` member. -/
def ConversationState.value : ConversationState → String
  | .initial => "initial"
  | .problem_solving => "problem_solving"
  | .follow_up => "follow_up"
  | .escalation => "escalation"
  | .resolved => "resolved"

/-- One element of `ConversationContext.resolution_attempts`
(the dict appended by `update_context`). -/
structure ResolutionAttempt where
  solution : String
  timestamp : String
  outcome : String
  user_feedback : String
deriving Repr, DecidableEq

/-- The `ConversationContext` dataclass. -/
structure ConversationContext where
  conversation_id : String
  user_id : String
  current_state : ConversationState
  last_solution_offered : Option String := none
  attempt_count : Int := 0
  frustration_level : Int := 0
  topic : Option String := none
  preferred_tone : String := "helpful"
  resolution_attempts : List ResolutionAttempt := []
deriving Repr, DecidableEq

/-- Python truthiness of an `Optional[str]`: `None` and the empty string are falsy. -/
def truthyS : Option String → Bool
  | none => false
  | some s => s ≠ ""

/-- Python `message.split()`: split on whitespace runs, discarding empties. -/
def splitWS (s : String) : List String :=
  (splitPred (fun c => c.isWhitespace) s.toList []).filter (fun t => t ≠ "")

/-- `ChatService.detect_follow_up`. -/
def detect_follow_up (message : String) (context : ConversationContext) : Bool :=
  let message_lower := message.toList.map Char.toLower
  follow_up_patterns.any (fun p => reSearch p message_lower)
  || (context.current_state == ConversationState.problem_solving
      && truthyS context.last_solution_offered
      && (splitWS message).length < 10)

/-- Two consecutive characters from `{!, ?}`: Python `re.search(r"[!?]{2,}", message)`. -/
def hasDoublePunct : List Char → Bool
  | a :: b :: rest =>
      ((a == '!' || a == '?') && (b == '!' || b == '?')) || hasDoublePunct (b :: rest)
  | _ => false

/-- Number of uppercase characters of the message. -/
def upperCount (message : String) : Nat :=
  (message.toList.filter (fun c => c.isUpper)).length

/-- `ChatService.detect_frustration_level`.  The float comparison
`caps_ratio > 0.3` is modelled exactly over the rationals as
`10 * upperCount > 3 * max (length message) 1`. -/
def detect_frustration_level (message : String) (context : ConversationContext) : Int :=
  let message_lower := message.toList.map Char.toLower
  let s0 : Int := context.frustration_level
  let s1 : Int := s0 +
    2 * (frustration_indicators.filter (fun p => reSearch p message_lower)).length
  let s2 : Int :=
    if 10 * upperCount message > 3 * max message.toList.length 1 then s1 + 1 else s1
  let s3 : Int := if hasDoublePunct message.toList then s2 + 1 else s2
  let s4 : Int := if context.attempt_count > 2 then s3 + 1 else s3
  min s4 10

/-- `ChatService.determine_tone`. -/
def determine_tone (context : ConversationContext) : String :=
  if context.frustration_level ≥ 7 then "empathetic_escalation"
  else if context.frustration_level ≥ 4 then "empathetic_supportive"
  else if context.attempt_count ≥ 3 then "patient_alternative"
  else if context.current_state == ConversationState.follow_up then "understanding_adaptive"
  else "helpful_friendly"

/-!
## Knowledge base model and `search_agent_kb`
The knowledge base JSON (`kb["agents"]`) is an insertion-ordered dict of
agents, each with an ordered dict of categories, each with a list of
response dicts; both dicts are association lists here.
-/

/-- One response entry of the knowledge base: its `content`, `keywords`
and `type` fields (the ones `chat_service.py` reads). -/
structure KBResponse where
  content : String
  keywords : List String
  rtype : String
deriving Repr, DecidableEq

/-- One category: its `responses` list (the field `chat_service.py` reads)
and the optional `title` that `semantic_search.py` reads with a default. -/
structure KBCategory where
  responses : List KBResponse
  title : Option String := none
deriving Repr, DecidableEq

/-- One agent: its display `name` (absent in the empty fallback corpus the
constructor builds when the JSON file is missing) and ordered `categories`
dict. -/
structure AgentData where
  name : Option String := none
  categories : List (String × KBCategory)
deriving Repr, DecidableEq

/-- `self.kb`: the ordered agents dict. -/
abbrev KB := List (String × AgentData)

/-- Ordered-dict lookup (first binding wins, as in a Python dict). -/
def lookupD {α : Type} : List (String × α) → String → Option α
  | [], _ => none
  | (k, v) :: rest, key => if k = key then some v else lookupD rest key

/-- Ordered-dict update: replace the existing binding or append a new one,
as assignment to a Python dict key does. -/
def insertD {α : Type} : List (String × α) → String → α → List (String × α)
  | [], key, v => [(key, v)]
  | (k, w) :: rest, key, v =>
      if k = key then (k, v) :: rest else (k, w) :: insertD rest key v

/-- `ChatService.normalize`: lowercase, underscores to spaces, strip all
characters outside `[a-z0-9 ]`, then strip surrounding whitespace. -/
def normalize (text : String) : String :=
  let lowered := text.toList.map Char.toLower
  let replaced := lowered.map (fun c => if c == '_' then ' ' else c)
  let kept := replaced.filter
    (fun c => ('a' ≤ c && c ≤ 'z') || ('0' ≤ c && c ≤ '9') || c == ' ')
  String.mk (((kept.dropWhile (fun c => c == ' ')).reverse.dropWhile
    (fun c => c == ' ')).reverse)

/-- `ChatService.tokenize`: the words of the normalized text.  Python returns a
`set`; every use only tests membership / non-empty intersection, for which the
token list is equivalent. -/
def tokenize (text : String) : List String :=
  (splitPred (fun c => c == ' ') (normalize text).toList []).filter (fun t => t ≠ "")

/-- Non-empty intersection of two token sets (Python `a & b` used as a truth value). -/
def tokensIntersect (a b : List String) : Bool := a.any (fun t => b.contains t)

/-- The category-name match condition of `search_agent_kb`'s first pass:
`cat_name_norm in message_norm or message_norm in cat_name_norm or
cat_name_tokens & message_tokens`. -/
def nameMatches (message_norm : String) (message_tokens : List String)
    (cat_name : String) : Bool :=
  insideS (normalize cat_name) message_norm
  || insideS message_norm (normalize cat_name)
  || tokensIntersect (tokenize cat_name) message_tokens

/-- The keyword-overlap score of one response
(`score += 1` per keyword whose token set meets the message's). -/
def respScore (message_tokens : List String) (resp : KBResponse) : Nat :=
  (resp.keywords.filter (fun kw => tokensIntersect (tokenize kw) message_tokens)).length

/-- The second-pass scoring loop over one category's responses, threading the
`(best_match, best_score)` accumulator (`if score > best_score`). -/
def scanResponses (message_tokens : List String) :
    List KBResponse → Option KBResponse × Nat → Option KBResponse × Nat
  | [], acc => acc
  | r :: rs, (best, best_score) =>
      let score := respScore message_tokens r
      if score > best_score then scanResponses message_tokens rs (some r, score)
      else scanResponses message_tokens rs (best, best_score)

/-- The main loop of `search_agent_kb` over the agent's categories: a
category whose name matches and whose `responses` list is non-empty
returns its first response at once; otherwise its responses are scored
into the accumulator and the scan continues. -/
def searchCats (message_norm : String) (message_tokens : List String) :
    List (String × KBCategory) → Option KBResponse × Nat → Option KBResponse
  | [], (best, _) => best
  | (cat_name, cat) :: rest, acc =>
      if nameMatches message_norm message_tokens cat_name && !cat.responses.isEmpty then
        cat.responses.head?
      else
        searchCats message_norm message_tokens rest
          (scanResponses message_tokens cat.responses acc)

/-- `ChatService.search_agent_kb`. -/
def search_agent_kb (kb : KB) (agent message : String) : Option KBResponse :=
  let agent_kb := match lookupD kb agent with
    | some ad => ad.categories
    | none => []
  searchCats (normalize message) (tokenize message) agent_kb (none, 0)

/-!
## Conversation-context state (`get_or_create_context`, `update_context`)
The state carried across calls is the `self.conversation_contexts` dict;
Python mutates the context object stored in it in place, which the model
renders by writing the updated context back into the map.  The
`self.conversations` LangChain-chain dict holds only external LLM memory
and is not represented.
-/

/-- The mutable per-service state the context tracker touches. -/
structure ChatServiceState where
  conversation_contexts : List (String × ConversationContext)
deriving Repr, DecidableEq

/-- `ChatService.get_or_create_context` (the coordinator passes
`conversation_id` for `user_id` as well). -/
def get_or_create_context (st : ChatServiceState) (conversation_id : String)
    (user_id : Option String) : ConversationContext × ChatServiceState :=
  match lookupD st.conversation_contexts conversation_id with
  | some c => (c, st)
  | none =>
      let c : ConversationContext :=
        { conversation_id := conversation_id
          user_id := if truthyS user_id then user_id.getD conversation_id
                     else conversation_id
          current_state := ConversationState.initial }
      (c, { conversation_contexts := insertD st.conversation_contexts conversation_id c })

/-- `ChatService.update_context`.  `now` stands for
`datetime.utcnow().isoformat()`.  Returns the updated context (`None` when
the conversation has no context) together with the updated service state. -/
def update_context (st : ChatServiceState) (conversation_id message : String)
    (solution_offered : Option String) (now : String) :
    Option ConversationContext × ChatServiceState :=
  match lookupD st.conversation_contexts conversation_id with
  | none => (none, st)
  | some context =>
      let is_follow_up := detect_follow_up message context
      let c1 :=
        if is_follow_up then
          let c := { context with
            current_state := ConversationState.follow_up
            attempt_count := context.attempt_count + 1 }
          let c := { c with frustration_level := detect_frustration_level message c }
          if truthyS c.last_solution_offered then
            { c with resolution_attempts := c.resolution_attempts ++
                [{ solution := c.last_solution_offered.getD ""
                   timestamp := now
                   outcome := "ineffective"
                   user_feedback := message }] }
          else c
        else context
      let c2 :=
        if truthyS solution_offered then
          let c := { c1 with last_solution_offered := solution_offered }
          if !is_follow_up then { c with current_state := ConversationState.problem_solving }
          else c
        else c1
      let c3 := { c2 with preferred_tone := determine_tone c2 }
      (some c3,
       { conversation_contexts := insertD st.conversation_contexts conversation_id c3 })

/-- Python `str.strip()`: drop surrounding whitespace. -/
def stripPy (s : String) : String :=
  String.mk (((s.toList.dropWhile Char.isWhitespace).reverse.dropWhile
    Char.isWhitespace).reverse)

/-- The action-verb list of `extract_solution_summary`. -/
def action_words : List String := ["try", "click", "go to", "check", "update", "restart"]

/-- `ChatService.extract_solution_summary`: keep the first two sentences
holding an action verb, else truncate the answer to 100 characters. -/
def extract_solution_summary (response : String) : String :=
  let sentences := splitPred (fun c => c == '.') response.toList []
  let action_sentences :=
    (sentences.filter (fun s => action_words.any (fun a => insideS a (lowerS s)))).map stripPy
  if !action_sentences.isEmpty then String.intercalate ". " (action_sentences.take 2)
  else String.mk (response.toList.take 100)

/-- The `tech_keywords` list of `simple_agent_routing`. -/
def sar_tech_keywords : List String :=
  ["internet", "wifi", "modem", "router", "connection", "slow", "outage",
   "not working", "down", "offline", "reset", "restart", "troubleshoot",
   "technical", "equipment", "cable", "signal", "speed"]

/-- The `billing_keywords` list of `simple_agent_routing`. -/
def sar_billing_keywords : List String :=
  ["bill", "billing", "payment", "charge", "cost", "price", "fee", "account",
   "subscription", "plan", "upgrade", "downgrade", "cancel", "refund",
   "credit", "balance", "due", "overdue", "autopay"]

/-- `ChatService.simple_agent_routing`. -/
def simple_agent_routing (message : String) : String :=
  let message_lower := lowerS message
  let tech_score := (sar_tech_keywords.filter (fun k => insideS k message_lower)).length
  let billing_score := (sar_billing_keywords.filter (fun k => insideS k message_lower)).length
  if tech_score > billing_score then "tech_support"
  else if billing_score > 0 then "billing"
  else "general"

/-!
## `local_intent_service.py`
-/

/-- One entry of `self.intent_patterns`. -/
structure IntentPattern where
  keywords : List String
  phrases : List String
  confidence_boost : ℚ
deriving Repr, DecidableEq

/-- The `billing` entry of `self.intent_patterns`. -/
def billing_pattern : IntentPattern :=
  { keywords :=
      ["bill", "billing", "charge", "charges", "payment", "pay", "cost", "costs",
       "expensive", "high bill", "overcharge", "refund", "credit", "balance",
       "account", "statement", "invoice", "fee", "fees", "price", "pricing",
       "my bill is so high", "help me understand my bill", "explain my charges",
       "why is my bill", "billing question", "payment due", "autopay"]
    phrases :=
      ["my bill is so high", "help me understand my bill", "explain my charges",
       "why is my bill", "how much do i owe", "payment is due", "can't afford",
       "billing error", "wrong charge", "unexpected charge"]
    confidence_boost := 3/10 }

/-- The `technical_support` entry of `self.intent_patterns`. -/
def technical_support_pattern : IntentPattern :=
  { keywords :=
      ["internet", "wifi", "connection", "slow", "down", "outage", "not working",
       "broken", "fix", "repair", "troubleshoot", "speed", "bandwidth", "modem",
       "router", "cable", "signal", "network", "ethernet", "wireless", "connect",
       "disconnect", "reset", "reboot", "setup", "install", "configuration"]
    phrases :=
      ["internet is slow", "wifi not working", "connection problems", "can't connect",
       "internet is down", "no internet", "wifi issues", "slow speed", "internet out",
       "connection lost", "can't get online", "network problems"]
    confidence_boost := 3/10 }

/-- The `equipment` entry of `self.intent_patterns`. -/
def equipment_pattern : IntentPattern :=
  { keywords :=
      ["box", "cable box", "remote", "tv", "television", "dvr", "receiver",
       "equipment", "device", "hardware", "replacement", "upgrade", "install",
       "setup", "activation", "activate", "new equipment", "broken equipment"]
    phrases :=
      ["cable box not working", "remote not working", "tv problems", "need new equipment",
       "equipment broken", "box is broken", "remote broken", "dvr issues"]
    confidence_boost := 2/10 }

/-- The `general` entry of `self.intent_patterns`. -/
def general_pattern : IntentPattern :=
  { keywords :=
      ["help", "support", "assistance", "question", "info", "information",
       "service", "customer service", "representative", "agent", "talk to someone"]
    phrases :=
      ["can you help me", "need assistance", "have a question", "need help",
       "customer service", "talk to agent", "speak to someone"]
    confidence_boost := 1/10 }

/-- `self.intent_patterns`, in dict insertion order. -/
def intent_patterns : List (String × IntentPattern) :=
  [("billing", billing_pattern),
   ("technical_support", technical_support_pattern),
   ("equipment", equipment_pattern),
   ("general", general_pattern)]

/-- The classification result dict of `LocalIntentService.classify_intent`. -/
structure ClassifyResult where
  intent : String
  confidence : ℚ
  method : String
  keywords_matched : List String
  reasoning : String
  all_scores : List (String × ℚ) := []
deriving Repr, DecidableEq

/-- Score one category against the lowercased message: `0.8` per matched
phrase, `0.3` per matched keyword, plus the category's boost when the sum
is positive; also the `keywords_found` list (phrase hits, then keyword hits). -/
def scoreIntent (message_lower : String) (p : IntentPattern) : ℚ × List String :=
  let phrase_hits := p.phrases.filter (fun ph => insideS (lowerS ph) message_lower)
  let kw_hits := p.keywords.filter (fun kw => insideS (lowerS kw) message_lower)
  let score : ℚ := (8/10) * phrase_hits.length + (3/10) * kw_hits.length
  let score := if score > 0 then score + p.confidence_boost else score
  (score, phrase_hits ++ kw_hits)

/-- The `intent_scores` / `matched_keywords` maps, in dict order. -/
def intent_scores_list (message : String) : List (String × ℚ × List String) :=
  let message_lower := stripPy (lowerS message)
  intent_patterns.map (fun p => (p.1, scoreIntent message_lower p.2))

/-- Python `max` over a non-empty list of values. -/
def pyMax (l : List ℚ) : ℚ :=
  match l with
  | [] => 0
  | x :: xs => xs.foldl max x

/-- Python `max(keys, key=score)`: the first key attaining the maximal score
(replacement only on strictly greater). -/
def firstArgmax (l : List (String × ℚ)) : String × ℚ :=
  match l with
  | [] => ("general", 0)
  | x :: xs => xs.foldl (fun b y => if y.2 > b.2 then y else b) x

/-- The maximal category score for a message. -/
def maxIntentScore (message : String) : ℚ :=
  pyMax ((intent_scores_list message).map (fun x => x.2.1))

/-- `LocalIntentService.classify_intent`.  The `not isinstance(message, str)`
guard is vacuous in the typed model; `not message` is the empty-string test. -/
def classify_intent (message : String) : ClassifyResult :=
  if message = "" then
    { intent := "general", confidence := 1/2, method := "local_fallback",
      keywords_matched := [], reasoning := "Empty or invalid message" }
  else
    let scored := intent_scores_list message
    let pairs := scored.map (fun x => (x.1, x.2.1))
    if pyMax (pairs.map (fun x => x.2)) = 0 then
      { intent := "general", confidence := 1/2, method := "local_default",
        keywords_matched := [], reasoning := "No keywords matched, defaulting to general" }
    else
      let best := firstArgmax pairs
      let confidence := min best.2 1
      let confidence :=
        if confidence > 8/10 then min (confidence + 15/100) (95/100) else confidence
      let matched := ((scored.find? (fun x => x.1 == best.1)).map (fun x => x.2.2)).getD []
      { intent := best.1, confidence := confidence, method := "local_keyword_matching",
        keywords_matched := matched,
        reasoning := "Matched " ++ toString matched.length ++ " keywords/phrases for " ++ best.1,
        all_scores := pairs }

/-- `LocalIntentService.route_message`. -/
def route_message (message : String) : String × ClassifyResult :=
  let intent_data := classify_intent message
  if intent_data.intent = "technical_support" then ("technical_support", intent_data)
  else if intent_data.intent = "billing" then ("billing", intent_data)
  else if intent_data.intent = "equipment" then ("technical_support", intent_data)
  else ("general", intent_data)

/-!
## The coordinator (`ChatService.coordinator` and its helpers)
-/

/-- The dict-shaped `intent_data` values the pipeline produces, as a tagged
union: the full local classification, the fixed
`{"confidence": c, "keywords": ks}` fallbacks, the follow-up block and the
`{"empathy_triggered": True}` block. -/
inductive IntentData where
  | classified : ClassifyResult → IntentData
  | simple : ℚ → List String → IntentData
  | followUp : Bool → Int → Int → Nat → IntentData
  | empathy : Bool → IntentData
deriving Repr, DecidableEq

/-- The `conversation_metrics` block the coordinator attaches. -/
structure ConvMetricsBlock where
  processing_time_ms : ℚ
  is_follow_up : Bool
  attempt_count : Int
  frustration_level : Int
  conversation_state : String
  tone_used : String
deriving Repr, DecidableEq

/-- The response dict of one turn.  Keys absent from a given Python dict
(`solution_summary`, `conversation_flow`, `conversation_metrics`) are `none`. -/
structure TurnResponse where
  answer : String
  agent : String
  agent_type : String
  answer_type : String
  intent : String
  intent_data : IntentData
  solution_summary : Option String := none
  conversation_flow : Option String := none
  conversation_metrics : Option ConvMetricsBlock := none
deriving Repr, DecidableEq

/-- The outcomes of the turn's external effects, supplied as inputs:
whether the intent-routing call raises (its `except` branch), whether the
LLM client was constructed (`self.llm_available`), the result of the
`chain.arun` completion call, and an unexpected exception reaching the
top-level `try` of `coordinator` (`none` = no such exception). -/
structure Oracle where
  intent_raises : Bool
  llm_available : Bool
  arun : Except String String
  unexpected : Option String
deriving Repr

/-- `ChatService.create_empathetic_fallback_text`. -/
def create_empathetic_fallback_text (context : ConversationContext) : String :=
  if context.frustration_level ≥ 6 then
    "I understand this has been frustrating. Let me try a different approach to help you. Could you tell me more specifically what happened when you tried the previous suggestion?"
  else
    "I see that the previous solution didn't work as expected. Let me suggest a different approach. Can you tell me more details about what you're experiencing?"

/-- `ChatService.create_empathetic_fallback`: the error response of the
follow-up path, tagged `empathetic_fallback`. -/
def create_empathetic_fallback (context : ConversationContext) : TurnResponse :=
  let message :=
    if context.frustration_level ≥ 6 then
      "I understand this has been frustrating. Let me connect you with a human agent who can provide more personalized assistance."
    else
      "I apologize that my previous suggestion didn't work as expected. Let me try a different approach to help resolve this issue."
  { answer := message
    agent := "Empathy Engine"
    agent_type := "supportive"
    answer_type := "empathetic_fallback"
    intent := "support"
    intent_data := IntentData.empathy true
    conversation_flow := some "empathetic_support" }

/-- The follow-up response dict built in the `try` of `handle_follow_up`. -/
def follow_up_response_data (context : ConversationContext) (response : String) :
    TurnResponse :=
  { answer := response
    agent := "Enhanced AI Assistant"
    agent_type := "conversational"
    answer_type := "follow_up_response"
    intent := "follow_up_assistance"
    intent_data := IntentData.followUp true context.attempt_count
      context.frustration_level context.resolution_attempts.length
    solution_summary := some (extract_solution_summary response)
    conversation_flow := some "follow_up_adaptive" }

/-- `ChatService.handle_follow_up`: an LLM completion under the follow-up
prompt when available, the canned empathetic text otherwise; a completion
failure is caught and answered by `create_empathetic_fallback`. -/
def handle_follow_up (orc : Oracle) (context : ConversationContext) : TurnResponse :=
  if orc.llm_available then
    match orc.arun with
    | Except.ok response => follow_up_response_data context response
    | Except.error _ => create_empathetic_fallback context
  else
    follow_up_response_data context (create_empathetic_fallback_text context)

/-- The rate-limit test of the LLM error handler:
`"rate limit" in str(e).lower() or "429" in str(e)`. -/
def rate_limited (e : String) : Bool :=
  insideS "rate limit" (lowerS e) || insideS "429" e

/-- The fixed apology used on rate-limited or unavailable LLM. -/
def llm_apology : String :=
  "I'm here to help with your Xfinity services. I can assist with internet issues, billing questions, equipment troubleshooting, and general support. What specific problem are you experiencing?"

/-- The generic clarification request used on other LLM errors. -/
def llm_clarify : String :=
  "I found some information that might help you. Could you be more specific about what you're looking for?"

/-- The cross-agent fallback probe: the first of the given agents whose
knowledge base matches the message, with the matching response. -/
def firstHit (kb : KB) (message : String) : List String → Option (String × KBResponse)
  | [] => none
  | a :: rest =>
      match search_agent_kb kb a message with
      | some r => some (a, r)
      | none => firstHit kb message rest

/-- Step 1 of `handle_regular_message`: classify the message and map the
intent to an agent; when the routing call raises, fall back to
`simple_agent_routing` with the fixed `{"confidence": 0.5, "keywords": []}`
data.  Returns `(intent, intent_data, agent)`. -/
def regular_route (orc : Oracle) (message : String) : String × IntentData × String :=
  if orc.intent_raises then
    let a := simple_agent_routing message
    (a, IntentData.simple (1/2) [], a)
  else
    let r := route_message message
    let a := if r.1 = "technical_support" then "tech_support"
             else if r.1 = "billing" then "billing"
             else "general"
    (r.1, IntentData.classified r.2, a)

/-- Steps 2–3 of `handle_regular_message`: the primary agent's knowledge
base, then the other agents in the fixed order
`[tech_support, billing, general]`, then the LLM with its two error texts.
Returns `(answer, answer_type, agent)` — the agent is updated to the one
that matched. -/
def regular_answer (kb : KB) (orc : Oracle) (message agent : String) :
    String × String × String :=
  match search_agent_kb kb agent message with
  | some r => (r.content, r.rtype, agent)
  | none =>
      match firstHit kb message
        ((["tech_support", "billing", "general"]).filter (fun a => a ≠ agent)) with
      | some hit => (hit.2.content, hit.2.rtype, hit.1)
      | none =>
          if orc.llm_available then
            match orc.arun with
            | Except.ok a => (a, "llm_generated", agent)
            | Except.error e =>
                (if rate_limited e then llm_apology else llm_clarify, "kb_fallback", agent)
          else (llm_apology, "kb_fallback", agent)

/-- `ChatService.handle_regular_message`. -/
def handle_regular_message (kb : KB) (orc : Oracle) (message : String)
    (_context : ConversationContext) : TurnResponse :=
  let step1 := regular_route orc message
  let step2 := regular_answer kb orc message step1.2.2
  { answer := step2.1
    agent := ((lookupD kb step2.2.2).bind (fun ad => ad.name)).getD "Support Agent"
    agent_type := step2.2.2
    answer_type := step2.2.1
    intent := step1.1
    intent_data := step1.2.1
    solution_summary := some (extract_solution_summary step2.1)
    conversation_flow := some "regular_flow" }

/-- The fixed `error_fallback` response of `coordinator`'s `except` branch. -/
def error_fallback_response (processing_ms : ℚ) : TurnResponse :=
  { answer := "I'm here to help with your Xfinity services. You can ask me about internet issues, billing questions, or general support."
    agent := "General Support"
    agent_type := "general"
    answer_type := "error_fallback"
    intent := "general"
    intent_data := IntentData.simple 0 []
    conversation_metrics := some
      { processing_time_ms := processing_ms
        is_follow_up := false
        attempt_count := 0
        frustration_level := 0
        conversation_state := "error"
        tone_used := "helpful_friendly" } }

/-- `ChatService.coordinator`.  `now` and `processing_ms` stand for the wall
clock (`datetime.utcnow().isoformat()` and `(time.time()-start_time)*1000`);
an unexpected exception is abstracted as raising before the body runs. -/
def coordinator (kb : KB) (orc : Oracle) (st : ChatServiceState)
    (conversation_id message : String) (now : String) (processing_ms : ℚ) :
    TurnResponse × ChatServiceState :=
  match orc.unexpected with
  | some _ => (error_fallback_response processing_ms, st)
  | none =>
      let s1 := get_or_create_context st conversation_id (some conversation_id)
      let context := s1.1
      let is_follow_up := detect_follow_up message context
      let response_data :=
        if is_follow_up then handle_follow_up orc context
        else handle_regular_message kb orc message context
      let solution_offered := response_data.solution_summary
      let s2 := update_context s1.2 conversation_id message solution_offered now
      let cfinal := s2.1.getD context
      let metrics : ConvMetricsBlock :=
        { processing_time_ms := processing_ms
          is_follow_up := is_follow_up
          attempt_count := cfinal.attempt_count
          frustration_level := cfinal.frustration_level
          conversation_state := cfinal.current_state.value
          tone_used := cfinal.preferred_tone }
      ({ response_data with conversation_metrics := some metrics }, s2.2)

/-- The knowledge-base loading of `ChatService.__init__`: the parsed JSON
corpus when the file opens, else (`FileNotFoundError` caught) the fixed
empty three-agent corpus. -/
def chat_service_init_kb (file : Option KB) : KB :=
  match file with
  | some kb => kb
  | none =>
      [("tech_support", { categories := [] }),
       ("billing", { categories := [] }),
       ("general", { categories := [] })]

/-!
## `semantic_search.py` (`SemanticKnowledgeBase`)
Only the control flow around loading and indexing is modelled (the
embedding vectors themselves are opaque); this is what decides whether the
constructor raises.  A raising Python call is an `Except.error`.
-/

/-- One flattened response record stored in `self.responses`
(the numeric `id` field is not modelled). -/
structure SemResponse where
  agent : String
  category : String
  content : String
  keywords : List String
  rtype : String
  title : String
deriving Repr, DecidableEq

/-- `SemanticKnowledgeBase._load_and_embed`: `open(KB_PATH)` is wrapped in no
handler, so a missing file raises `FileNotFoundError` out of the
constructor; otherwise the corpus is flattened into `self.responses`. -/
def load_and_embed (file : Option KB) : Except String (List SemResponse) :=
  match file with
  | none => Except.error "FileNotFoundError"
  | some kb =>
      Except.ok (kb.flatMap (fun ap => ap.2.categories.flatMap (fun cp =>
        cp.2.responses.map (fun resp =>
          { agent := ap.1
            category := cp.1
            content := resp.content
            keywords := resp.keywords
            rtype := resp.rtype
            title := cp.2.title.getD cp.1 }))))

/-- `SemanticKnowledgeBase._build_faiss_index`: `self.embeddings.shape[1]`
raises `IndexError` when the corpus produced no embeddings (the encoded
array of an empty text list is one-dimensional). -/
def build_faiss_index (responses : List SemResponse) : Except String Unit :=
  if responses.isEmpty then Except.error "IndexError"
  else Except.ok ()

/-- `SemanticKnowledgeBase.__init__`: load and embed, then build the index;
either failure propagates to the caller. -/
def semantic_kb_init (file : Option KB) : Except String (List SemResponse) := do
  let responses ← load_and_embed file
  let _ ← build_faiss_index responses
  Except.ok responses

/-- The hybrid combination of `hybrid_search`:
`alpha * semantic_score + (1 - alpha) * keyword_score`. -/
def hybrid_score (alpha semantic_score keyword_score : ℚ) : ℚ :=
  alpha * semantic_score + (1 - alpha) * keyword_score

/-!
## `conversation_metrics.py` (`ConversationMetricsCollector`)
Timestamps are rationals (seconds); `datetime.utcnow()` is the `now`
argument, `timedelta(days=7)` is `604800` seconds.
-/

/-- The dynamically-typed `value` of a metric record. -/
inductive MetricValue where
  | num : ℚ → MetricValue
  | boolean : Bool → MetricValue
  | str : String → MetricValue
deriving Repr, DecidableEq

/-- The `interaction_data` dict passed to `track_conversation_quality`
(the coordinator's `conversation_metrics` block); absent keys are `none`,
read through the `.get` defaults of the source. -/
structure InteractionData where
  processing_time_ms : Option ℚ := none
  is_follow_up : Option Bool := none
  frustration_level : Option Int := none
  attempt_count : Option Int := none
  answer_type : Option String := none
  tone_used : Option String := none
  user_id : Option String := none
deriving Repr, DecidableEq

/-- The `ConversationMetric` dataclass. -/
structure ConversationMetric where
  conversation_id : String
  user_id : String
  timestamp : ℚ
  metric_type : String
  value : MetricValue
  metadata : InteractionData
deriving Repr, DecidableEq

/-- The seven-day retention horizon, in seconds. -/
def seven_days : ℚ := 604800

/-- `ConversationMetricsCollector._record_metric`: append one record, then
retain only records with `timestamp >= utcnow() - 7 days`. -/
def record_metric (metrics : List ConversationMetric) (conversation_id metric_type : String)
    (value : MetricValue) (metadata : InteractionData) (now : ℚ) :
    List ConversationMetric :=
  let metric : ConversationMetric :=
    { conversation_id := conversation_id
      user_id := metadata.user_id.getD "unknown"
      timestamp := now
      metric_type := metric_type
      value := value
      metadata := metadata }
  (metrics ++ [metric]).filter (fun m => m.timestamp ≥ now - seven_days)

/-- The `metrics_to_track` list of `track_conversation_quality`, with the
source's `.get` defaults. -/
def metrics_to_track (d : InteractionData) : List (String × MetricValue) :=
  [("processing_time", MetricValue.num (d.processing_time_ms.getD 0)),
   ("is_follow_up", MetricValue.boolean (d.is_follow_up.getD false)),
   ("frustration_level", MetricValue.num ((d.frustration_level.getD 0 : Int) : ℚ)),
   ("attempt_count", MetricValue.num ((d.attempt_count.getD 1 : Int) : ℚ)),
   ("answer_type", MetricValue.str (d.answer_type.getD "unknown")),
   ("tone_used", MetricValue.str (d.tone_used.getD "default"))]

/-- `ConversationMetricsCollector.track_conversation_quality`: record each
tracked field in turn (each record prunes; the calls share one `now` in
the model). -/
def track_conversation_quality (metrics : List ConversationMetric)
    (conversation_id : String) (interaction_data : InteractionData) (now : ℚ) :
    List ConversationMetric :=
  (metrics_to_track interaction_data).foldl
    (fun ms p => record_metric ms conversation_id p.1 p.2 interaction_data now)
    metrics

/-!
## Specification predicates and concrete fixtures
-/

/-- All response entries of a corpus declare the `kb_exact` type (true of the
shipped corpus per the specification's `answerType` enum). -/
def KBTypesOK (kb : KB) : Prop :=
  ∀ ap ∈ kb, ∀ cp ∈ ap.2.categories, ∀ r ∈ cp.2.responses, r.rtype = "kb_exact"

/-- The five-value `answerType` enum of the specification. -/
def answer_type_enum5 : List String :=
  ["kb_exact", "kb_fallback", "llm_generated", "follow_up_response", "error_fallback"]

/-- The `answerType` values the pipeline can actually produce over a corpus
whose entries all declare `kb_exact`: the five-value enum extended with
`empathetic_fallback`. -/
def answer_type_enum6 : List String :=
  ["kb_exact", "kb_fallback", "llm_generated", "follow_up_response", "error_fallback",
   "empathetic_fallback"]

/-- A conversation context in the problem-solving state with a solution on
record (so a short next message counts as a follow-up). -/
def ctxA : ConversationContext :=
  { conversation_id := "c1"
    user_id := "c1"
    current_state := ConversationState.problem_solving
    last_solution_offered := some "Please try restarting your modem" }

/-- A service state holding `ctxA` under conversation id `c1`. -/
def stA : ChatServiceState := { conversation_contexts := [("c1", ctxA)] }

/-- An oracle whose completion call fails with a generic error. -/
def orcErr : Oracle :=
  { intent_raises := false, llm_available := true
    arun := Except.error "boom", unexpected := none }

/-- An oracle whose completion call fails with a rate-limit error. -/
def orcRate : Oracle :=
  { intent_raises := false, llm_available := true
    arun := Except.error "rate limit", unexpected := none }

/-- An oracle under which both the intent-routing call and the completion
call fail (the latter rate-limited). -/
def orcRateFail : Oracle :=
  { intent_raises := true, llm_available := true
    arun := Except.error "rate limit", unexpected := none }

/-- An oracle under which an unexpected exception reaches the top-level
`try` of `coordinator`. -/
def orcBoom : Oracle :=
  { intent_raises := false, llm_available := true
    arun := Except.ok "answer", unexpected := some "boom" }

/-- A two-category agent corpus where the first category's name shares a
token with the second category's name. -/
def kbShadow : KB :=
  [("general",
    { categories :=
        [("internet",
          { responses := [{ content := "A", keywords := [], rtype := "kb_exact" }] }),
         ("internet speed",
          { responses := [{ content := "B", keywords := [], rtype := "kb_exact" }] })] })]

/-- A one-category corpus for concrete retrieval runs. -/
def kbOne : KB :=
  [("general",
    { categories :=
        [("internet",
          { responses := [{ content := "A", keywords := ["wifi"], rtype := "kb_exact" }] })] })]

/-- A fresh context at frustration level 3. -/
def ctxB : ConversationContext :=
  { conversation_id := "c", user_id := "u",
    current_state := ConversationState.initial, frustration_level := 3 }

/-- The first record written by a `track_conversation_quality` call at time 0
on the empty store with an empty interaction dict. -/
def metricW : ConversationMetric :=
  { conversation_id := "c1", user_id := "unknown", timestamp := 0,
    metric_type := "processing_time", value := MetricValue.num 0, metadata := {} }

/-!
## Theorems
-/

/-- C2: for any message and any context whose frustration level lies in
`[0,10]`, `detect_frustration_level` returns an integer in `[0,10]` that is
at least the context's current level (monotone within the conversation,
saturating at 10). -/
theorem c2_frustration_monotone_bounded (message : String) (context : ConversationContext)
    (h0 : 0 ≤ context.frustration_level) (h10 : context.frustration_level ≤ 10) :
    context.frustration_level ≤ detect_frustration_level message context ∧
    0 ≤ detect_frustration_level message context ∧
    detect_frustration_level message context ≤ 10 := by
  unfold detect_frustration_level
  dsimp only
  split_ifs <;> omega

/-- Witness for C2 at a concrete context of level 3 and the empty message. -/
theorem c2_witness :
    (0 : Int) ≤ ctxB.frustration_level ∧ ctxB.frustration_level ≤ 10 ∧
    (ctxB.frustration_level ≤ detect_frustration_level "" ctxB ∧
     0 ≤ detect_frustration_level "" ctxB ∧
     detect_frustration_level "" ctxB ≤ 10) :=
  ⟨by decide, by decide,
   c2_frustration_monotone_bounded "" ctxB (by decide) (by decide)⟩

/-- C6: on a conversation that has a context, one `update_context` call
increments `attempt_count` by exactly 1 when `detect_follow_up` holds for
the message and context, leaves it unchanged otherwise, and never
decreases it. -/
theorem c6_attempt_count_step (st : ChatServiceState) (conversation_id message : String)
    (solution_offered : Option String) (now : String) (context : ConversationContext)
    (h : lookupD st.conversation_contexts conversation_id = some context) :
    ∃ c2, (update_context st conversation_id message solution_offered now).1 = some c2 ∧
      c2.attempt_count = context.attempt_count +
        (if detect_follow_up message context then 1 else 0) ∧
      context.attempt_count ≤ c2.attempt_count := by
  unfold update_context
  rw [h]
  dsimp only
  refine ⟨_, rfl, ?_, ?_⟩ <;> split_ifs <;> simp

/-- Witness for C6: updating `stA`'s context with the short follow-up
message `"ok"` exists and increments the attempt count as stated. -/
theorem c6_witness :
    ∃ c2, (update_context stA "c1" "ok" none "t0").1 = some c2 ∧
      c2.attempt_count = ctxA.attempt_count +
        (if detect_follow_up "ok" ctxA then 1 else 0) ∧
      ctxA.attempt_count ≤ c2.attempt_count :=
  c6_attempt_count_step stA "c1" "ok" none "t0" ctxA (by decide)

/-- C10: `update_context` on a conversation id with no context returns
`None` and leaves the service state exactly as it was. -/
theorem c10_update_context_no_context (st : ChatServiceState)
    (conversation_id message : String) (solution_offered : Option String) (now : String)
    (h : lookupD st.conversation_contexts conversation_id = none) :
    update_context st conversation_id message solution_offered now = (none, st) := by
  unfold update_context
  rw [h]

/-- Witness for C10 on the empty service state. -/
theorem c10_witness :
    update_context { conversation_contexts := [] } "c9" "hello" none "t0" =
      (none, { conversation_contexts := [] }) :=
  c10_update_context_no_context { conversation_contexts := [] } "c9" "hello" none "t0" rfl

/-- C8: with the keyword and semantic scores fixed in `[0,1]`, the hybrid
score `α·s + (1−α)·w` of `hybrid_search` is non-decreasing in `α` when
`s > w` and non-increasing in `α` when `s ≤ w`. -/
theorem c8_hybrid_score_monotone (s w a1 a2 : ℚ)
    (hs0 : 0 ≤ s) (hs1 : s ≤ 1) (hw0 : 0 ≤ w) (hw1 : w ≤ 1)
    (ha0 : 0 ≤ a1) (ha : a1 ≤ a2) (ha1 : a2 ≤ 1) :
    (w < s → hybrid_score a1 s w ≤ hybrid_score a2 s w) ∧
    (s ≤ w → hybrid_score a2 s w ≤ hybrid_score a1 s w) := by
  unfold hybrid_score
  constructor <;> intro h <;> nlinarith [mul_nonneg (sub_nonneg.2 ha) (sub_nonneg.2 hw0)]

/-- Witness for C8 at `s = 1`, `w = 0`, `α` from `0` to `1`. -/
theorem c8_witness : hybrid_score 0 1 0 ≤ hybrid_score 1 1 0 :=
  (c8_hybrid_score_monotone 1 0 0 1 (by norm_num) (by norm_num) (by norm_num)
    (by norm_num) (by norm_num) (by norm_num) (by norm_num)).1 (by norm_num)

/-- Any record surviving `record_metric`'s prune is within the retention
horizon measured at the write. -/
theorem record_metric_retention (metrics : List ConversationMetric)
    (conversation_id metric_type : String) (value : MetricValue)
    (metadata : InteractionData) (now : ℚ) (m : ConversationMetric)
    (hm : m ∈ record_metric metrics conversation_id metric_type value metadata now) :
    now - seven_days ≤ m.timestamp := by
  unfold record_metric at hm
  simp only [List.mem_filter, decide_eq_true_eq, ge_iff_le] at hm
  exact hm.2

/-- C9: after a `track_conversation_quality` write (one record per tracked
field, each followed by the prune), no record older than the 7-day
retention horizon measured at write time remains in the store. -/
theorem c9_retention_after_write (metrics : List ConversationMetric)
    (conversation_id : String) (interaction_data : InteractionData) (now : ℚ)
    (m : ConversationMetric)
    (hm : m ∈ track_conversation_quality metrics conversation_id interaction_data now) :
    now - seven_days ≤ m.timestamp := by
  unfold track_conversation_quality metrics_to_track at hm
  simp only [List.foldl] at hm
  exact record_metric_retention _ _ _ _ _ _ _ hm

/-- Witness for C9: the store after a write on the empty store holds the
`processing_time` record, and it is within the horizon. -/
theorem c9_witness :
    metricW ∈ track_conversation_quality [] "c1" {} 0 ∧
    (0 : ℚ) - seven_days ≤ metricW.timestamp :=
  ⟨by norm_num [track_conversation_quality, metrics_to_track, record_metric,
      seven_days, metricW, List.filter, List.foldl],
   c9_retention_after_write [] "c1" {} 0 metricW
     (by norm_num [track_conversation_quality, metrics_to_track, record_metric,
        seven_days, metricW, List.filter, List.foldl])⟩

/-- The first-argmax fold of `classify_intent` attains the running maximum of
the scores. -/
lemma foldl_pick_snd (x : String × ℚ) (xs : List (String × ℚ)) :
    (xs.foldl (fun b y => if y.2 > b.2 then y else b) x).2 =
      xs.foldl (fun m y => max m y.2) x.2 := by
  induction xs generalizing x with
  | nil => rfl
  | cons y ys ih =>
      simp only [List.foldl]
      rw [ih]
      congr 1
      split_ifs with h
      · exact (max_eq_right h.le).symm
      · exact (max_eq_left (not_lt.1 h)).symm

/-- `firstArgmax` returns an entry whose score is the Python `max` of the
scores. -/
lemma firstArgmax_snd (x : String × ℚ) (xs : List (String × ℚ)) :
    (firstArgmax (x :: xs)).2 = pyMax ((x :: xs).map Prod.snd) := by
  show (xs.foldl _ x).2 = pyMax (x.2 :: xs.map Prod.snd)
  rw [foldl_pick_snd]
  show _ = (xs.map Prod.snd).foldl max x.2
  rw [List.foldl_map]

/-- Evaluation lemma for one category's score, given the two filter results. -/
lemma scoreIntent_eval (ml : String) (p : IntentPattern) (lp lk : List String)
    (hp : p.phrases.filter (fun ph => insideS (lowerS ph) ml) = lp)
    (hk : p.keywords.filter (fun kw => insideS (lowerS kw) ml) = lk) :
    (scoreIntent ml p).1 =
      (if (8/10 : ℚ) * lp.length + (3/10) * lk.length > 0
       then (8/10 : ℚ) * lp.length + (3/10) * lk.length + p.confidence_boost
       else (8/10 : ℚ) * lp.length + (3/10) * lk.length) := by
  unfold scoreIntent
  rw [hp, hk]

/-- The maximal score spelled out over the four categories. -/
lemma maxIntentScore_eq (message : String) :
    maxIntentScore message =
      max (max (max (scoreIntent (stripPy (lowerS message)) billing_pattern).1
            (scoreIntent (stripPy (lowerS message)) technical_support_pattern).1)
          (scoreIntent (stripPy (lowerS message)) equipment_pattern).1)
        (scoreIntent (stripPy (lowerS message)) general_pattern).1 := rfl

/-- No category scores on the empty message. -/
lemma maxIntentScore_empty : maxIntentScore "" = 0 := by
  rw [maxIntentScore_eq,
      scoreIntent_eval _ billing_pattern [] [] (by decide) (by decide),
      scoreIntent_eval _ technical_support_pattern [] [] (by decide) (by decide),
      scoreIntent_eval _ equipment_pattern [] [] (by decide) (by decide),
      scoreIntent_eval _ general_pattern [] [] (by decide) (by decide)]
  norm_num

/-- C7: the local keyword classifier returns intent `general` with
confidence exactly `0.5` when the maximal category score is `0`; otherwise
the winning confidence is the best score capped at `1.0`, and whenever the
capped confidence exceeds `0.8` the returned value is the capped confidence
plus `0.15`, itself capped at `0.95` — hence never above `0.95` there. -/
theorem c7_classifier_confidence (message : String) :
    (maxIntentScore message = 0 →
      (classify_intent message).intent = "general" ∧
      (classify_intent message).confidence = 1/2) ∧
    (maxIntentScore message ≠ 0 →
      (classify_intent message).confidence =
        (if min (maxIntentScore message) 1 > 8/10
         then min (min (maxIntentScore message) 1 + 15/100) (95/100)
         else min (maxIntentScore message) 1) ∧
      (classify_intent message).confidence ≤ 1 ∧
      (min (maxIntentScore message) 1 > 8/10 →
        (classify_intent message).confidence ≤ 95/100)) := by
  by_cases hempty : message = ""
  · subst hempty
    exact ⟨fun _ => ⟨rfl, rfl⟩, fun h => absurd maxIntentScore_empty h⟩
  · have hmax : pyMax ((((intent_scores_list message).map
        (fun x => (x.1, x.2.1))).map (fun x => x.2))) = maxIntentScore message := by
      rw [List.map_map]; rfl
    have hfa : (firstArgmax ((intent_scores_list message).map (fun x => (x.1, x.2.1)))).2 =
        maxIntentScore message := by
      have hshape : (intent_scores_list message).map (fun x => (x.1, x.2.1)) =
          ("billing", (scoreIntent (stripPy (lowerS message)) billing_pattern).1) ::
          [("technical_support",
            (scoreIntent (stripPy (lowerS message)) technical_support_pattern).1),
           ("equipment", (scoreIntent (stripPy (lowerS message)) equipment_pattern).1),
           ("general", (scoreIntent (stripPy (lowerS message)) general_pattern).1)] := rfl
      rw [hshape, firstArgmax_snd]
      rfl
    by_cases hz : maxIntentScore message = 0
    · constructor
      · intro _
        unfold classify_intent
        rw [if_neg hempty]
        dsimp only
        rw [hmax, if_pos hz]
        exact ⟨rfl, rfl⟩
      · intro hne
        exact absurd hz hne
    · constructor
      · intro h0
        exact absurd h0 hz
      · intro _
        unfold classify_intent
        rw [if_neg hempty]
        dsimp only
        rw [hmax, if_neg hz]
        dsimp only
        rw [hfa]
        by_cases hgt : min (maxIntentScore message) 1 > 8/10
        · rw [if_pos hgt]
          exact ⟨rfl,
            le_trans (min_le_right _ _) (by norm_num),
            fun _ => min_le_right _ _⟩
        · rw [if_neg hgt]
          exact ⟨rfl, min_le_right _ _, fun hg => absurd hg hgt⟩

/-- Witness for C7 on `"internet is down"` (score `1.7`, confidence boosted
and capped at `0.95`). -/
theorem c7_witness :
    maxIntentScore "internet is down" ≠ 0 ∧
    (classify_intent "internet is down").confidence =
      (if min (maxIntentScore "internet is down") 1 > 8/10
       then min (min (maxIntentScore "internet is down") 1 + 15/100) (95/100)
       else min (maxIntentScore "internet is down") 1) ∧
    (classify_intent "internet is down").confidence ≤ 1 ∧
    (classify_intent "internet is down").confidence ≤ 95/100 := by
  have hM : maxIntentScore "internet is down" = 17/10 := by
    rw [maxIntentScore_eq,
        scoreIntent_eval _ billing_pattern [] [] (by decide) (by decide),
        scoreIntent_eval _ technical_support_pattern ["internet is down"]
          ["internet", "down"] (by decide) (by decide),
        scoreIntent_eval _ equipment_pattern [] [] (by decide) (by decide),
        scoreIntent_eval _ general_pattern [] [] (by decide) (by decide)]
    norm_num [billing_pattern, technical_support_pattern, equipment_pattern,
      general_pattern, max_def]
  have hne : maxIntentScore "internet is down" ≠ 0 := by rw [hM]; norm_num
  have h := (c7_classifier_confidence "internet is down").2 hne
  exact ⟨hne, h.1, h.2.1, h.2.2 (by rw [hM]; norm_num [min_def])⟩

/-- C4 counterexample: the hybrid semantic mode does raise — with the corpus
file unloadable, `SemanticKnowledgeBase.__init__` propagates
`FileNotFoundError` instead of returning an empty candidate list. -/
theorem c4_counterexample :
    semantic_kb_init none = Except.error "FileNotFoundError" := rfl

/-- C4 (amended): on an empty or unloadable corpus the exact/overlap mode
returns no match and never raises (`ChatService.__init__` catches
`FileNotFoundError` and substitutes an empty three-agent corpus), but the
hybrid semantic mode raises at construction: `FileNotFoundError` for an
unloadable file, `IndexError` at index build for an empty corpus. -/
theorem c4_empty_corpus_amended :
    (∀ agent message, search_agent_kb (chat_service_init_kb none) agent message = none) ∧
    semantic_kb_init none = Except.error "FileNotFoundError" ∧
    (∀ kb : KB, load_and_embed (some kb) = Except.ok [] →
      semantic_kb_init (some kb) = Except.error "IndexError") := by
  refine ⟨?_, rfl, ?_⟩
  · intro agent message
    simp only [search_agent_kb, chat_service_init_kb, lookupD]
    split_ifs <;> rfl
  · intro kb h
    unfold semantic_kb_init
    rw [h]
    rfl

/-- Witness for C4 on the empty corpus and the missing file. -/
theorem c4_witness :
    semantic_kb_init (some []) = Except.error "IndexError" ∧
    search_agent_kb (chat_service_init_kb none) "tech_support" "internet is down" = none :=
  ⟨c4_empty_corpus_amended.2.2 [] rfl,
   c4_empty_corpus_amended.1 "tech_support" "internet is down"⟩

/-- The category scan returns the first name-matching category's first
response once every earlier category fails the (match ∧ non-empty) test,
whatever the accumulator holds. -/
lemma searchCats_append_hit (mn : String) (mt : List String)
    (pre : List (String × KBCategory)) (cn : String) (cat : KBCategory)
    (post : List (String × KBCategory))
    (hpre : ∀ p ∈ pre, (nameMatches mn mt p.1 && !p.2.responses.isEmpty) = false)
    (hmatch : (nameMatches mn mt cn && !cat.responses.isEmpty) = true) :
    ∀ acc, searchCats mn mt (pre ++ (cn, cat) :: post) acc = cat.responses.head? := by
  induction pre with
  | nil =>
      intro acc
      simp only [List.nil_append, searchCats, hmatch, if_true]
  | cons p ps ih =>
      intro acc
      obtain ⟨pn, pcat⟩ := p
      have hp := hpre (pn, pcat) (List.mem_cons_self _ _)
      show searchCats mn mt ((pn, pcat) :: (ps ++ (cn, cat) :: post)) acc = _
      simp only [searchCats, hp, Bool.false_eq_true, if_false]
      exact ih (fun q hq => hpre q (List.mem_cons_of_mem _ hq)) _

/-- C3 (amended): when a category of the agent's corpus name-matches the
message, has responses, and no earlier category in dict order both
name-matches and has responses, `search_agent_kb` returns that category's
first entry — independently of every other category's entries (they are
universally quantified here). -/
theorem c3_category_match_amended (kb : KB) (agent message : String) (ad : AgentData)
    (pre post : List (String × KBCategory)) (cn : String) (cat : KBCategory)
    (h1 : lookupD kb agent = some ad)
    (h2 : ad.categories = pre ++ (cn, cat) :: post)
    (hpre : ∀ p ∈ pre, (nameMatches (normalize message) (tokenize message) p.1 &&
      !p.2.responses.isEmpty) = false)
    (hmatch : nameMatches (normalize message) (tokenize message) cn = true)
    (hne : cat.responses ≠ []) :
    search_agent_kb kb agent message = cat.responses.head? := by
  unfold search_agent_kb
  rw [h1]
  dsimp only
  rw [h2]
  exact searchCats_append_hit _ _ pre cn cat post hpre
    (by simp [hmatch, hne, List.isEmpty_iff]) (none, 0)

/-- C3 counterexample: in `kbShadow` the message `"internet speed"` consists
only of tokens of the single category name `"internet speed"` (its tokens
are not all tokens of `"internet"`), yet retrieval returns the earlier
category `"internet"`'s first entry, not that category's first entry — the
earlier category's name token-intersects the message. -/
theorem c3_counterexample :
    ((tokenize "internet speed").all (fun t => (tokenize "internet speed").contains t) = true) ∧
    ((tokenize "internet speed").all (fun t => (tokenize "internet").contains t) = false) ∧
    search_agent_kb kbShadow "general" "internet speed" =
      some { content := "A", keywords := [], rtype := "kb_exact" } ∧
    search_agent_kb kbShadow "general" "internet speed" ≠
      some { content := "B", keywords := [], rtype := "kb_exact" } := by decide

/-- Witness for C3 (amended) on the one-category corpus. -/
theorem c3_witness :
    search_agent_kb kbOne "general" "internet down" =
      ({ responses := [{ content := "A", keywords := ["wifi"], rtype := "kb_exact" }] } :
        KBCategory).responses.head? :=
  c3_category_match_amended kbOne "general" "internet down"
    { categories :=
        [("internet",
          { responses := [{ content := "A", keywords := ["wifi"], rtype := "kb_exact" }] })] }
    [] []
    "internet"
    { responses := [{ content := "A", keywords := ["wifi"], rtype := "kb_exact" }] }
    (by decide) rfl (by simp) (by decide) (by decide)

/-- C1 (amended): an exception reaching the top-level `try` of `coordinator`
is caught and converted to the fixed `error_fallback` response whose
`intent_data` carries confidence `0.0` and empty keywords; failures handled
by inner tiers produce their own fallback responses instead (see the
counterexample). -/
theorem c1_top_level_catch_amended (kb : KB) (orc : Oracle) (st : ChatServiceState)
    (conversation_id message now : String) (processing_ms : ℚ) (e : String)
    (h : orc.unexpected = some e) :
    (coordinator kb orc st conversation_id message now processing_ms).1 =
      error_fallback_response processing_ms ∧
    (coordinator kb orc st conversation_id message now processing_ms).1.answer_type =
      "error_fallback" ∧
    (coordinator kb orc st conversation_id message now processing_ms).1.intent_data =
      IntentData.simple 0 [] := by
  unfold coordinator
  rw [h]
  exact ⟨rfl, rfl, rfl⟩

/-- Witness for C1 (amended) under an unexpected top-level exception. -/
theorem c1_witness :
    orcBoom.unexpected = some "boom" ∧
    ((coordinator kbOne orcBoom { conversation_contexts := [] } "c1" "hi" "t0" 5).1 =
      error_fallback_response 5 ∧
     (coordinator kbOne orcBoom { conversation_contexts := [] } "c1" "hi" "t0" 5).1.answer_type =
      "error_fallback" ∧
     (coordinator kbOne orcBoom { conversation_contexts := [] } "c1" "hi" "t0" 5).1.intent_data =
      IntentData.simple 0 []) :=
  ⟨rfl, c1_top_level_catch_amended kbOne orcBoom { conversation_contexts := [] }
    "c1" "hi" "t0" 5 "boom" rfl⟩

/-- C1 counterexample: a turn in which internal steps do fail — the
intent-routing call raises and the LLM completion is rate-limited — yet the
returned response is the `kb_fallback` apology, not the fixed
`error_fallback` response: inner tiers catch their own failures. -/
theorem c1_counterexample :
    orcRateFail.arun = Except.error "rate limit" ∧
    (coordinator (chat_service_init_kb none) orcRateFail { conversation_contexts := [] }
      "c1" "hello" "t0" 0).1.answer_type = "kb_fallback" ∧
    (coordinator (chat_service_init_kb none) orcRateFail { conversation_contexts := [] }
      "c1" "hello" "t0" 0).1.answer_type ≠ "error_fallback" := by
  refine ⟨rfl, by decide, by decide⟩

/-- C5 counterexample: a follow-up turn whose completion call fails is
answered by `create_empathetic_fallback`, whose `answer_type`
`empathetic_fallback` lies outside the specification's five-value enum. -/
theorem c5_counterexample :
    (coordinator (chat_service_init_kb none) orcErr stA "c1" "ok" "t0" 0).1.answer_type =
      "empathetic_fallback" ∧
    "empathetic_fallback" ∉ answer_type_enum5 := by
  exact ⟨by decide, by decide⟩

/-- The scoring scan only ever promotes a response of the scanned list into
the accumulator. -/
lemma scanResponses_mem (mt : List String) (rs : List KBResponse) :
    ∀ acc r, (scanResponses mt rs acc).1 = some r → acc.1 = some r ∨ r ∈ rs := by
  induction rs with
  | nil => intro acc r h; exact Or.inl h
  | cons x xs ih =>
      intro acc r h
      obtain ⟨best, bs⟩ := acc
      simp only [scanResponses] at h
      split at h
      · rcases ih _ _ h with h1 | h1
        · simp only at h1
          cases h1
          exact Or.inr (List.mem_cons_self _ _)
        · exact Or.inr (List.mem_cons_of_mem _ h1)
      · rcases ih _ _ h with h1 | h1
        · exact Or.inl h1
        · exact Or.inr (List.mem_cons_of_mem _ h1)

/-- Anything `searchCats` returns comes from the accumulator or from some
scanned category's responses. -/
lemma searchCats_mem (mn : String) (mt : List String) (cats : List (String × KBCategory)) :
    ∀ acc r, searchCats mn mt cats acc = some r →
      acc.1 = some r ∨ ∃ cp ∈ cats, r ∈ cp.2.responses := by
  induction cats with
  | nil =>
      intro acc r h
      obtain ⟨best, bs⟩ := acc
      exact Or.inl h
  | cons c cs ih =>
      intro acc r h
      obtain ⟨cn, cat⟩ := c
      simp only [searchCats] at h
      split at h
      · right
        exact ⟨(cn, cat), List.mem_cons_self _ _, List.mem_of_mem_head? h⟩
      · rcases ih _ _ h with h1 | ⟨cp, hcp, hr⟩
        · rcases scanResponses_mem mt cat.responses acc r h1 with h2 | h2
          · exact Or.inl h2
          · exact Or.inr ⟨(cn, cat), List.mem_cons_self _ _, h2⟩
        · exact Or.inr ⟨cp, List.mem_cons_of_mem _ hcp, hr⟩

/-- A successful ordered-dict lookup yields a binding of the list. -/
lemma lookupD_mem {α : Type} (l : List (String × α)) (key : String) (v : α)
    (h : lookupD l key = some v) : (key, v) ∈ l := by
  induction l with
  | nil => cases h
  | cons p ps ih =>
      obtain ⟨k, w⟩ := p
      simp only [lookupD] at h
      split at h
      · rename_i hk
        cases h
        cases hk
        exact List.mem_cons_self _ _
      · exact List.mem_cons_of_mem _ (ih h)

/-- Over a corpus whose entries all declare `kb_exact`, any entry
`search_agent_kb` returns declares `kb_exact`. -/
lemma search_agent_kb_rtype (kb : KB) (agent message : String) (r : KBResponse)
    (hkb : KBTypesOK kb) (h : search_agent_kb kb agent message = some r) :
    r.rtype = "kb_exact" := by
  unfold search_agent_kb at h
  cases hl : lookupD kb agent with
  | none =>
      rw [hl] at h
      dsimp only at h
      rcases searchCats_mem _ _ _ _ _ h with h1 | ⟨cp, hcp, _⟩
      · exact absurd h1 (by simp)
      · exact absurd hcp (List.not_mem_nil _)
  | some ad =>
      rw [hl] at h
      dsimp only at h
      rcases searchCats_mem _ _ _ _ _ h with h1 | ⟨cp, hcp, hr⟩
      · exact absurd h1 (by simp)
      · exact hkb (agent, ad) (lookupD_mem kb agent ad hl) cp hcp r hr

/-- The cross-agent probe inherits the `kb_exact` property. -/
lemma firstHit_rtype (kb : KB) (message : String) (hkb : KBTypesOK kb) :
    ∀ (agents : List String) (a : String) (r : KBResponse),
      firstHit kb message agents = some (a, r) → r.rtype = "kb_exact" := by
  intro agents
  induction agents with
  | nil => intro a r h; cases h
  | cons x xs ih =>
      intro a r h
      simp only [firstHit] at h
      cases hs : search_agent_kb kb x message with
      | some r0 =>
          rw [hs] at h
          dsimp only at h
          cases h
          exact search_agent_kb_rtype kb x message _ hkb hs
      | none =>
          rw [hs] at h
          exact ih a r h

/-- The follow-up handler tags `follow_up_response` or `empathetic_fallback`. -/
lemma handle_follow_up_answer_type (orc : Oracle) (context : ConversationContext) :
    (handle_follow_up orc context).answer_type ∈ answer_type_enum6 := by
  unfold handle_follow_up
  split
  · split
    · simp [follow_up_response_data, answer_type_enum6]
    · simp [create_empathetic_fallback, answer_type_enum6]
  · simp [follow_up_response_data, answer_type_enum6]

/-- The regular-turn answer step tags the matched entry's declared type,
`llm_generated` or `kb_fallback`. -/
lemma regular_answer_answer_type (kb : KB) (orc : Oracle) (message agent : String)
    (hkb : KBTypesOK kb) :
    (regular_answer kb orc message agent).2.1 ∈ answer_type_enum6 := by
  unfold regular_answer
  split
  · rename_i r hs
    have := search_agent_kb_rtype kb agent message r hkb hs
    simp [this, answer_type_enum6]
  · split
    · rename_i hit hs
      have := firstHit_rtype kb message hkb _ hit.1 hit.2 (by rw [hs])
      simp [this, answer_type_enum6]
    · split
      · split
        · simp [answer_type_enum6]
        · simp [answer_type_enum6]
      · simp [answer_type_enum6]

/-- C5 (amended): over a corpus whose entries all declare the `kb_exact`
type, every response the coordinator returns has an `answer_type` in the
five-value enum extended with `empathetic_fallback` — the enum of the
specification must be widened by that sixth value. -/
theorem c5_answer_type_enum_amended (kb : KB) (orc : Oracle) (st : ChatServiceState)
    (conversation_id message now : String) (processing_ms : ℚ) (hkb : KBTypesOK kb) :
    (coordinator kb orc st conversation_id message now processing_ms).1.answer_type ∈
      answer_type_enum6 := by
  unfold coordinator
  cases hu : orc.unexpected with
  | some e => simp [error_fallback_response, answer_type_enum6]
  | none =>
      dsimp only
      split
      · exact handle_follow_up_answer_type orc _
      · exact regular_answer_answer_type kb orc message _ hkb

/-- Witness for C5 (amended) on the one-category `kb_exact` corpus. -/
theorem c5_witness :
    KBTypesOK kbOne ∧
    (coordinator kbOne orcRate { conversation_contexts := [] }
      "c1" "hello" "t0" 0).1.answer_type ∈ answer_type_enum6 :=
  ⟨by unfold KBTypesOK; decide,
   c5_answer_type_enum_amended kbOne orcRate { conversation_contexts := [] }
    "c1" "hello" "t0" 0 (by unfold KBTypesOK; decide)⟩

end ChatSpec
